import Mathlib

/-!
Verification of the Gemini Code Assist adapter
(`gemini-code-assist-adapter/src/{lib,models,error}.rs`).

The adapter is embedded shallowly.  External collaborators are passed in as
explicit parameters:
  * the HTTP transport (`reqwest`) becomes a `send` function returning either
    a transport failure (`Except.error`) or an `HttpResponse` with numeric
    status and body text;
  * the serde decoders for the various response bodies become `parse`/`dec`
    functions `String → Except String _` (serde is external; the adapter only
    branches on success/failure of decoding);
  * the UUID generator becomes explicit `session_id` / `user_prompt_id`
    arguments (the source generates them fresh per call);
  * the SSE framing layer (`eventsource-stream`) is modelled at event
    granularity by `eventsource_events` below.
-/

namespace CodeAssist

/-- JSON values at the granularity the adapter manipulates them
(`serde_json::Value`); objects are association lists of fields. -/
inductive Json where
  | null : Json
  | bool : Bool → Json
  | num : Int → Json
  | str : String → Json
  | arr : List Json → Json
  | obj : List (String × Json) → Json

/-- `error.rs`: the `AdapterError` enum.  `RequestFailed` wraps
`reqwest::Error` (via `#[from]`), `SerdeError` wraps `serde_json::Error`
(via `#[from]`), `ApiError` carries status code and message, `StreamError`
carries a stringified event-stream error. -/
inductive AdapterError where
  | RequestFailed : String → AdapterError
  | SerdeError : String → AdapterError
  | ApiError : Nat → String → AdapterError
  | StreamError : String → AdapterError
deriving DecidableEq

/-- An HTTP response as the adapter observes it: numeric status code plus the
body text (`response.text()`). -/
structure HttpResponse where
  status : Nat
  body : String
deriving DecidableEq

/-- One server-sent event as produced by the `eventsource-stream`
collaborator; the adapter only reads its `data` field. -/
structure SseEvent where
  data : String
deriving DecidableEq

deriving instance DecidableEq for Except

/-- An HTTP response for the streaming endpoint: status, body text (read on
the error path) and the items of `response.bytes_stream().eventsource()`,
at event granularity: each underlying item is either a parsed event or a
stream-level error. -/
structure HttpStreamResponse where
  status : Nat
  body : String
  events : List (Except String SseEvent)
deriving DecidableEq

/-- `models.rs`: `CodeAssistResponseEnvelope`, parametric in the inner
`GenerationResponse` type (which comes from the external `gemini_rust`
crate and is opaque to the adapter). -/
structure CodeAssistResponseEnvelope (R : Type) where
  response : R
  trace_id : Option String
deriving DecidableEq

/-- `models.rs`: `Tier`. -/
structure Tier where
  id : String
deriving DecidableEq

/-- `models.rs`: `LoadCodeAssistResponse`. -/
structure LoadCodeAssistResponse where
  cloudaicompanion_project : Option String
  current_tier : Option Tier
deriving DecidableEq

/-- `models.rs`: `ProjectInfo`. -/
structure ProjectInfo where
  id : String
deriving DecidableEq

/-- `models.rs`: `OnboardUserResponse`. -/
structure OnboardUserResponse where
  cloudaicompanion_project : Option ProjectInfo
deriving DecidableEq

/-- `models.rs`: `LroResponse` (long-running-operation record). -/
structure LroResponse where
  name : String
  done : Option Bool
  response : Option OnboardUserResponse
deriving DecidableEq

/-- `models.rs`: `CodeAssistEnvelope`, the outbound wire object. -/
structure CodeAssistEnvelope where
  model : String
  project : String
  user_prompt_id : Option String
  request : Json

/-- `reqwest::StatusCode::is_success()`: 2xx. -/
def is_success (status : Nat) : Bool :=
  decide (200 ≤ status) && decide (status < 300)

/-- `lib.rs` `sanitize_model_name`: Rust
`model.strip_prefix("models/").unwrap_or(model).to_string()`, embedded at
character granularity (for valid UTF-8 the byte-level strip of an ASCII
pattern coincides with the character-level one). -/
def sanitize_model_name (model : String) : String :=
  if "models/".data.isPrefixOf model.data then
    String.mk (model.data.drop "models/".data.length)
  else model

/-- `serde_json::Map::insert` on an object, as an association-list update:
replaces the value at an existing key, otherwise adds the field. -/
def insert_json_field : List (String × Json) → String → Json → List (String × Json)
  | [], k, v => [(k, v)]
  | (k0, v0) :: rest, k, v =>
    if k0 = k then (k, v) :: rest else (k0, v0) :: insert_json_field rest k v

/-- `lib.rs` (both generation paths): `if let Some(obj) = request_json.as_object_mut()
\x7b obj.insert("session_id", json!(session_id)) \x7d`; a non-object payload
is left untouched. -/
def inject_session_id (request_json : Json) (session_id : String) : Json :=
  match request_json with
  | .obj fields => .obj (insert_json_field fields "session_id" (.str session_id))
  | other => other

/-- `lib.rs` (both generation paths): construction of the outbound
`CodeAssistEnvelope` from the client state and the serialized request. -/
def build_generation_envelope (model project : String) (request_json : Json)
    (session_id user_prompt_id : String) : CodeAssistEnvelope :=
  { model := sanitize_model_name model
    project := project
    user_prompt_id := some user_prompt_id
    request := inject_session_id request_json session_id }

/-- `lib.rs` `CodeAssistClient::load_code_assist`.  `send_result` is the
outcome of `self.http_client.post(..).send()`; `parse` is the serde decoding
performed by `response.json()`, whose failure is a `reqwest::Error` and is
therefore converted by `?` into `AdapterError::RequestFailed`. -/
def load_code_assist (project_id : String)
    (send_result : Except String HttpResponse)
    (parse : String → Except String LoadCodeAssistResponse) :
    Except AdapterError String :=
  match send_result with
  | .error e => .error (.RequestFailed e)
  | .ok response =>
    if !(is_success response.status) then
      .error (.ApiError response.status ("Handshake failed: " ++ response.body))
    else
      match parse response.body with
      | .error e => .error (.RequestFailed e)
      | .ok data => .ok (data.cloudaicompanion_project.getD project_id)

/-- `lib.rs` `CodeAssistClient::onboard_user`, the body of one request:
`.send().await?.json().await?`.  The HTTP status is never inspected; both a
transport failure of `send` and a decode failure of `json()` are
`reqwest::Error`s converted by `?` into `AdapterError::RequestFailed`. -/
def onboard_fetch (send_result : Except String HttpResponse)
    (parse : String → Except String LroResponse) :
    Except AdapterError LroResponse :=
  match send_result with
  | .error e => .error (.RequestFailed e)
  | .ok response =>
    match parse response.body with
    | .error e => .error (.RequestFailed e)
    | .ok lro => .ok lro

/-- `lib.rs` `onboard_user` polling loop:
`while lro.done != Some(true) && attempts < 5 \x7b sleep(2); resend; attempts += 1 \x7d`.
`send j` is the j-th HTTP request of the call (the initial request is j = 0).
Returns the final record together with the number of retries performed and
the total seconds slept. -/
def onboard_loop (send : Nat → Except String HttpResponse)
    (parse : String → Except String LroResponse)
    (lro : LroResponse) (attempts : Nat) :
    Except AdapterError (LroResponse × Nat × Nat) :=
  if _h : lro.done ≠ some true ∧ attempts < 5 then
    match onboard_fetch (send (attempts + 1)) parse with
    | .error e => .error e
    | .ok lro2 =>
      match onboard_loop send parse lro2 (attempts + 1) with
      | .error e => .error e
      | .ok (final, retries, secs) => .ok (final, retries + 1, secs + 2)
  else
    .ok (lro, 0, 0)
termination_by 5 - attempts
decreasing_by omega

/-- `lib.rs` `onboard_user`, final step: `if let Some(resp) = lro.response
\x7b if let Some(proj) = resp.cloudaicompanion_project \x7b self.project_id =
proj.id \x7d \x7d` — the client project id after the call. -/
def onboard_result_project (project_id : String) (lro : LroResponse) : String :=
  match lro.response with
  | some resp =>
    match resp.cloudaicompanion_project with
    | some proj => proj.id
    | none => project_id
  | none => project_id

/-- `lib.rs` `CodeAssistClient::onboard_user`: initial request, polling loop,
then the project-id update from the completed operation.  Returns the
resulting `project_id` of the client, the total number of HTTP requests sent
and the total seconds slept.  Every exit path of the loop returns `Ok`. -/
def onboard_user (project_id : String)
    (send : Nat → Except String HttpResponse)
    (parse : String → Except String LroResponse) :
    Except AdapterError (String × Nat × Nat) :=
  match onboard_fetch (send 0) parse with
  | .error e => .error e
  | .ok lro0 =>
    match onboard_loop send parse lro0 0 with
    | .error e => .error e
    | .ok (lro, retries, secs) =>
      .ok (onboard_result_project project_id lro, 1 + retries, secs)

/-- `lib.rs` `CodeAssistClient::generate_content`.  `send` is the transport
(it receives the envelope the adapter built); `parse` is the serde decoding
performed by `response.json::<CodeAssistResponseEnvelope>()`, whose failure
is a `reqwest::Error` converted by `?` into `AdapterError::RequestFailed`. -/
def generate_content {R : Type} (model project : String) (request_json : Json)
    (session_id user_prompt_id : String)
    (send : CodeAssistEnvelope → Except String HttpResponse)
    (parse : String → Except String (CodeAssistResponseEnvelope R)) :
    Except AdapterError R :=
  let envelope := build_generation_envelope model project request_json session_id user_prompt_id
  match send envelope with
  | .error e => .error (.RequestFailed e)
  | .ok response =>
    if !(is_success response.status) then
      .error (.ApiError response.status response.body)
    else
      match parse response.body with
      | .error e => .error (.RequestFailed e)
      | .ok envelope_resp => .ok envelope_resp.response

/-- Models the external `eventsource-stream` collaborators termination
behaviour: `EventStream` yields parsed events while the underlying byte
stream succeeds; on the first stream-level error it yields that error and
closes (no further items are produced). -/
def eventsource_events : List (Except String SseEvent) → List (Except String SseEvent)
  | [] => []
  | .ok e :: rest => .ok e :: eventsource_events rest
  | .error e :: _ => [.error e]

/-- `lib.rs` `generate_content_stream`, the closure passed to `stream.map`:
a `"[DONE]"` data payload maps to `None` (filtered out later), any other
event is decoded with `serde_json::from_str::<CodeAssistResponseEnvelope>`
(`dec`), decode failure becoming `AdapterError::SerdeError`; a stream-level
error becomes `AdapterError::StreamError`. -/
def map_stream_event {R : Type}
    (dec : String → Except String (CodeAssistResponseEnvelope R)) :
    Except String SseEvent → Option (Except AdapterError R)
  | .ok event =>
    if event.data = "[DONE]" then
      none
    else
      match dec event.data with
      | .ok envelope => some (.ok envelope.response)
      | .error e => some (.error (.SerdeError e))
  | .error e => some (.error (.StreamError e))

/-- `lib.rs` `generate_content_stream`: the composed pipeline
`bytes_stream().eventsource()` → `map` → `filter_map(|x| x)`, as the list of
items the returned stream yields. -/
def decode_sse_stream {R : Type}
    (dec : String → Except String (CodeAssistResponseEnvelope R))
    (events : List (Except String SseEvent)) : List (Except AdapterError R) :=
  (eventsource_events events).filterMap (map_stream_event dec)

/-- `lib.rs` `CodeAssistClient::generate_content_stream`: envelope
construction, status check on the establishing response, then the decoded
event sequence. -/
def generate_content_stream {R : Type} (model project : String) (request_json : Json)
    (session_id user_prompt_id : String)
    (send : CodeAssistEnvelope → Except String HttpStreamResponse)
    (dec : String → Except String (CodeAssistResponseEnvelope R)) :
    Except AdapterError (List (Except AdapterError R)) :=
  let envelope := build_generation_envelope model project request_json session_id user_prompt_id
  match send envelope with
  | .error e => .error (.RequestFailed e)
  | .ok response =>
    if !(is_success response.status) then
      .error (.ApiError response.status response.body)
    else
      .ok (decode_sse_stream dec response.events)

/-- The decode case of the error taxonomy: `AdapterError::SerdeError`. -/
def is_decode_error : AdapterError → Bool
  | .SerdeError _ => true
  | _ => false

/-! ## Helper lemmas -/

/-- String append acts as append on the underlying character lists. -/
theorem data_append (a b : String) : (a ++ b).data = a.data ++ b.data := by
  cases a; cases b; rfl

/-! ## Claims -/

/-- C8: the model field placed in the outbound envelope is the identifier
with a leading "models/" prefix stripped when that prefix is present, and is
the identifier unchanged when the prefix is absent; in particular
"models/gemini-3-flash-preview" becomes "gemini-3-flash-preview". -/
theorem envelope_model_is_sanitized :
    (∀ model project request_json sid upid,
      (build_generation_envelope model project request_json sid upid).model
        = sanitize_model_name model) ∧
    (∀ rest : String, sanitize_model_name ("models/" ++ rest) = rest) ∧
    (∀ m : String, (¬ ∃ rest : String, m = "models/" ++ rest) →
      sanitize_model_name m = m) ∧
    sanitize_model_name "models/gemini-3-flash-preview" = "gemini-3-flash-preview" := by
  refine ⟨fun _ _ _ _ _ => rfl, fun rest => ?_, fun m h => ?_, by decide⟩
  · unfold sanitize_model_name
    rw [data_append]
    rw [if_pos (by simp)]
    rw [List.drop_left]
  · have hc : ("models/".data.isPrefixOf m.data) = false := by
      rw [Bool.eq_false_iff]
      intro hpre
      rw [List.isPrefixOf_iff_prefix] at hpre
      obtain ⟨t, ht⟩ := hpre
      exact h ⟨String.mk t, by cases m; exact (congrArg String.mk ht).symm⟩
    simp [sanitize_model_name, hc]

/-- Witness for `envelope_model_is_sanitized` at the concrete identifiers of
the claim. -/
theorem envelope_model_is_sanitized_witness :
    (build_generation_envelope "models/gemini-3-flash-preview" "p" Json.null "s" "u").model
      = "gemini-3-flash-preview" ∧
    sanitize_model_name "gemini-3-flash-preview" = "gemini-3-flash-preview" :=
  ⟨(envelope_model_is_sanitized.1 "models/gemini-3-flash-preview" "p" Json.null "s" "u").trans
      envelope_model_is_sanitized.2.2.2,
   envelope_model_is_sanitized.2.2.1 "gemini-3-flash-preview" (by
      rintro ⟨rest, h⟩
      have h2 := congrArg String.data h
      rw [data_append] at h2
      simp at h2)⟩

/-- C10: when the generic request does not serialize to a JSON object, the
session-id injection is silently skipped: the envelope carries the request
payload unchanged (hence no session id), the outer user prompt id is still
set to the freshly generated value, and both generation calls proceed
normally with that envelope. -/
theorem non_object_request_skips_session_id {R : Type}
    (model project : String) (request_json : Json) (sid upid : String)
    (h : ∀ fields, request_json ≠ Json.obj fields) :
    (build_generation_envelope model project request_json sid upid).request = request_json ∧
    (build_generation_envelope model project request_json sid upid).user_prompt_id = some upid ∧
    (∀ (send : CodeAssistEnvelope → Except String HttpResponse)
       (parse : String → Except String (CodeAssistResponseEnvelope R))
       (resp : HttpResponse) (env2 : CodeAssistResponseEnvelope R),
       send (build_generation_envelope model project request_json sid upid) = .ok resp →
       is_success resp.status = true →
       parse resp.body = .ok env2 →
       generate_content model project request_json sid upid send parse
         = .ok env2.response) ∧
    (∀ (send : CodeAssistEnvelope → Except String HttpStreamResponse)
       (dec : String → Except String (CodeAssistResponseEnvelope R))
       (resp : HttpStreamResponse),
       send (build_generation_envelope model project request_json sid upid) = .ok resp →
       is_success resp.status = true →
       generate_content_stream model project request_json sid upid send dec
         = .ok (decode_sse_stream dec resp.events)) := by
  have hreq : inject_session_id request_json sid = request_json := by
    cases request_json with
    | obj fields => exact absurd rfl (h fields)
    | null => rfl
    | bool b => rfl
    | num n => rfl
    | str s => rfl
    | arr a => rfl
  refine ⟨hreq, rfl, ?_, ?_⟩
  · intro send parse resp env2 hsend hst hp
    simp [generate_content, hsend, hst, hp]
  · intro send dec resp hsend hst
    simp [generate_content_stream, hsend, hst]

/-- Witness for `non_object_request_skips_session_id`: an array payload. -/
theorem non_object_request_skips_session_id_witness :
    (build_generation_envelope "m" "p" (Json.arr []) "s" "u").request = Json.arr [] ∧
    (build_generation_envelope "m" "p" (Json.arr []) "s" "u").user_prompt_id = some "u" ∧
    generate_content (R := Nat) "m" "p" (Json.arr []) "s" "u"
      (fun _ => .ok ⟨200, "body"⟩) (fun _ => .ok ⟨42, none⟩) = .ok 42 := by
  have h := non_object_request_skips_session_id (R := Nat) "m" "p" (Json.arr []) "s" "u"
      (fun fields hh => Json.noConfusion hh)
  exact ⟨h.1, h.2.1, h.2.2.1 _ _ ⟨200, "body"⟩ ⟨42, none⟩ rfl (by decide) rfl⟩

/-- C5: the handshake resolve operation returns the backend-supplied project
identifier when the successful response contains one, and otherwise returns
the tentative project identifier unchanged. -/
theorem load_code_assist_resolves_project (project_id : String) (resp : HttpResponse)
    (parse : String → Except String LoadCodeAssistResponse)
    (data : LoadCodeAssistResponse)
    (hst : is_success resp.status = true)
    (hp : parse resp.body = .ok data) :
    (∀ p, data.cloudaicompanion_project = some p →
       load_code_assist project_id (.ok resp) parse = .ok p) ∧
    (data.cloudaicompanion_project = none →
       load_code_assist project_id (.ok resp) parse = .ok project_id) := by
  constructor
  · intro p hsome
    simp [load_code_assist, hst, hp, hsome]
  · intro hnone
    simp [load_code_assist, hst, hp, hnone]

/-- Witness for `load_code_assist_resolves_project`: both the
backend-supplied case and the pass-through case at concrete inputs. -/
theorem load_code_assist_resolves_project_witness :
    load_code_assist "tentative" (.ok ⟨200, "ok-body"⟩)
      (fun _ => .ok ⟨some "backend-proj", none⟩) = .ok "backend-proj" ∧
    load_code_assist "tentative" (.ok ⟨200, "ok-body"⟩)
      (fun _ => .ok ⟨none, none⟩) = .ok "tentative" :=
  ⟨(load_code_assist_resolves_project "tentative" ⟨200, "ok-body"⟩ _
      ⟨some "backend-proj", none⟩ (by decide) rfl).1 "backend-proj" rfl,
   (load_code_assist_resolves_project "tentative" ⟨200, "ok-body"⟩ _
      ⟨none, none⟩ (by decide) rfl).2 rfl⟩

/-- Helper: the SSE layer passes through a run of successfully parsed
events unchanged. -/
theorem eventsource_events_of_all_ok (pre : List (Except String SseEvent))
    (h : ∀ x ∈ pre, ∃ ev, x = .ok ev) :
    eventsource_events pre = pre := by
  induction pre with
  | nil => rfl
  | cons x rest ih =>
    obtain ⟨ev, hx⟩ := h x (List.mem_cons_self x rest)
    subst hx
    simp [eventsource_events, ih (fun y hy => h y (List.mem_cons_of_mem _ hy))]

/-- Helper: the SSE layer truncates at the first stream-level error. -/
theorem eventsource_events_stops_at_error (pre suf : List (Except String SseEvent))
    (msg : String) (h : ∀ x ∈ pre, ∃ ev, x = .ok ev) :
    eventsource_events (pre ++ .error msg :: suf) = pre ++ [.error msg] := by
  induction pre with
  | nil => rfl
  | cons x rest ih =>
    obtain ⟨ev, hx⟩ := h x (List.mem_cons_self x rest)
    subst hx
    simp [eventsource_events, ih (fun y hy => h y (List.mem_cons_of_mem _ hy))]

/-- C2: a transport-level read failure on the underlying byte stream is
yielded as an `Err(StreamError)` element and the sequence produces no
further elements after it. -/
theorem stream_transport_error_is_terminal {R : Type} (model project : String)
    (request_json : Json) (sid upid : String)
    (send : CodeAssistEnvelope → Except String HttpStreamResponse)
    (dec : String → Except String (CodeAssistResponseEnvelope R))
    (resp : HttpStreamResponse) (pre suf : List (Except String SseEvent)) (msg : String)
    (hsend : send (build_generation_envelope model project request_json sid upid) = .ok resp)
    (hst : is_success resp.status = true)
    (hev : resp.events = pre ++ .error msg :: suf)
    (hpre : ∀ x ∈ pre, ∃ ev, x = .ok ev) :
    generate_content_stream model project request_json sid upid send dec
      = .ok (decode_sse_stream dec pre ++ [.error (.StreamError msg)]) := by
  simp only [generate_content_stream, hsend, hst, Bool.not_true, Bool.false_eq_true,
    if_false, hev]
  unfold decode_sse_stream
  rw [eventsource_events_stops_at_error pre suf msg hpre,
    eventsource_events_of_all_ok pre hpre, List.filterMap_append]
  simp [map_stream_event]

/-- Witness for `stream_transport_error_is_terminal`: one good event, then a
transport failure, with a further event behind it that is never yielded. -/
theorem stream_transport_error_is_terminal_witness :
    generate_content_stream (R := Nat) "m" "p" Json.null "s" "u"
      (fun _ => .ok ⟨200, "", [.ok ⟨"good"⟩, .error "io", .ok ⟨"good"⟩]⟩)
      (fun s => if s = "good" then .ok ⟨1, none⟩ else .error "bad")
      = .ok [.ok 1, .error (.StreamError "io")] := by
  have h := stream_transport_error_is_terminal (R := Nat) "m" "p" Json.null "s" "u"
      (fun _ => .ok ⟨200, "", [.ok ⟨"good"⟩, .error "io", .ok ⟨"good"⟩]⟩)
      (fun s => if s = "good" then .ok ⟨1, none⟩ else .error "bad")
      ⟨200, "", [.ok ⟨"good"⟩, .error "io", .ok ⟨"good"⟩]⟩
      [.ok ⟨"good"⟩] [.ok ⟨"good"⟩] "io" rfl (by decide) rfl
      (by
        intro x hx
        rw [List.mem_singleton] at hx
        exact ⟨⟨"good"⟩, hx⟩)
  simpa [decode_sse_stream, eventsource_events, map_stream_event] using h

/-- C3: an event whose payload fails to decode yields `Err(SerdeError)` for
that element only, and decoding continues: one malformed event between two
well-formed ones gives exactly three elements, `Ok`, `Err(decode)`, `Ok`. -/
theorem stream_decode_error_is_per_element {R : Type} (model project : String)
    (request_json : Json) (sid upid : String)
    (send : CodeAssistEnvelope → Except String HttpStreamResponse)
    (dec : String → Except String (CodeAssistResponseEnvelope R))
    (resp : HttpStreamResponse) (e1 e2 e3 : SseEvent)
    (env1 env3 : CodeAssistResponseEnvelope R) (msg : String)
    (hsend : send (build_generation_envelope model project request_json sid upid) = .ok resp)
    (hst : is_success resp.status = true)
    (hev : resp.events = [.ok e1, .ok e2, .ok e3])
    (h1 : e1.data ≠ "[DONE]") (hd1 : dec e1.data = .ok env1)
    (h2 : e2.data ≠ "[DONE]") (hd2 : dec e2.data = .error msg)
    (h3 : e3.data ≠ "[DONE]") (hd3 : dec e3.data = .ok env3) :
    generate_content_stream model project request_json sid upid send dec
      = .ok [.ok env1.response, .error (.SerdeError msg), .ok env3.response] := by
  simp [generate_content_stream, hsend, hst, hev, decode_sse_stream, eventsource_events,
    map_stream_event, h1, h2, h3, hd1, hd2, hd3]

/-- Witness for `stream_decode_error_is_per_element`. -/
theorem stream_decode_error_is_per_element_witness :
    generate_content_stream (R := Nat) "m" "p" Json.null "s" "u"
      (fun _ => .ok ⟨200, "", [.ok ⟨"a"⟩, .ok ⟨"b"⟩, .ok ⟨"c"⟩]⟩)
      (fun s => if s = "a" then .ok ⟨1, none⟩ else if s = "c" then .ok ⟨3, none⟩
                else .error "malformed")
      = .ok [.ok 1, .error (.SerdeError "malformed"), .ok 3] := by
  have h := stream_decode_error_is_per_element (R := Nat) "m" "p" Json.null "s" "u"
      (fun _ => .ok ⟨200, "", [.ok ⟨"a"⟩, .ok ⟨"b"⟩, .ok ⟨"c"⟩]⟩)
      (fun s => if s = "a" then .ok ⟨1, none⟩ else if s = "c" then .ok ⟨3, none⟩
                else .error "malformed")
      ⟨200, "", [.ok ⟨"a"⟩, .ok ⟨"b"⟩, .ok ⟨"c"⟩]⟩
      ⟨"a"⟩ ⟨"b"⟩ ⟨"c"⟩ ⟨1, none⟩ ⟨3, none⟩ "malformed"
      rfl (by decide) rfl
      (by decide) (by decide) (by decide) (by decide) (by decide) (by decide)
  exact h

/-- Helper: a run of well-formed events followed by the `"[DONE]"`
terminator decodes to the events themselves, all `Ok`, in order. -/
theorem decode_sse_stream_wellformed {R : Type}
    (dec : String → Except String (CodeAssistResponseEnvelope R))
    (evs : List SseEvent) (f : SseEvent → CodeAssistResponseEnvelope R)
    (hwf : ∀ ev ∈ evs, ev.data ≠ "[DONE]" ∧ dec ev.data = .ok (f ev)) :
    decode_sse_stream dec (evs.map .ok ++ [.ok ⟨"[DONE]"⟩])
      = evs.map (fun ev => .ok (f ev).response) := by
  induction evs with
  | nil => simp [decode_sse_stream, eventsource_events, map_stream_event]
  | cons ev rest ih =>
    have hhd := hwf ev (List.mem_cons_self ev rest)
    have ih2 := ih (fun y hy => hwf y (List.mem_cons_of_mem _ hy))
    simp only [List.map_cons, List.cons_append, decode_sse_stream, eventsource_events,
      List.filterMap_cons, map_stream_event, hhd.2, if_neg hhd.1] at ih2 ⊢
    exact congrArg _ ih2

/-- C4: a byte stream of N well-formed events followed by the terminator
token yields exactly N elements, all `Ok`, in wire-arrival order; the
terminator itself produces no element. -/
theorem stream_wellformed_events_all_ok {R : Type} (model project : String)
    (request_json : Json) (sid upid : String)
    (send : CodeAssistEnvelope → Except String HttpStreamResponse)
    (dec : String → Except String (CodeAssistResponseEnvelope R))
    (resp : HttpStreamResponse) (evs : List SseEvent)
    (f : SseEvent → CodeAssistResponseEnvelope R)
    (hsend : send (build_generation_envelope model project request_json sid upid) = .ok resp)
    (hst : is_success resp.status = true)
    (hev : resp.events = evs.map .ok ++ [.ok ⟨"[DONE]"⟩])
    (hwf : ∀ ev ∈ evs, ev.data ≠ "[DONE]" ∧ dec ev.data = .ok (f ev)) :
    generate_content_stream model project request_json sid upid send dec
      = .ok (evs.map (fun ev => .ok (f ev).response)) ∧
    (evs.map (fun ev => (.ok (f ev).response : Except AdapterError R))).length
      = evs.length := by
  constructor
  · simp only [generate_content_stream, hsend, hst, Bool.not_true, Bool.false_eq_true,
      if_false, hev]
    rw [decode_sse_stream_wellformed dec evs f hwf]
  · exact List.length_map _ _

/-- Witness for `stream_wellformed_events_all_ok`: two events then the
terminator yield exactly the two decoded chunks. -/
theorem stream_wellformed_events_all_ok_witness :
    generate_content_stream (R := Nat) "m" "p" Json.null "s" "u"
      (fun _ => .ok ⟨200, "", [.ok ⟨"a"⟩, .ok ⟨"b"⟩, .ok ⟨"[DONE]"⟩]⟩)
      (fun s => if s = "a" then .ok ⟨1, none⟩ else .ok ⟨2, none⟩)
      = .ok [.ok 1, .ok 2] := by
  have h := stream_wellformed_events_all_ok (R := Nat) "m" "p" Json.null "s" "u"
      (fun _ => .ok ⟨200, "", [.ok ⟨"a"⟩, .ok ⟨"b"⟩, .ok ⟨"[DONE]"⟩]⟩)
      (fun s => if s = "a" then .ok ⟨1, none⟩ else .ok ⟨2, none⟩)
      ⟨200, "", [.ok ⟨"a"⟩, .ok ⟨"b"⟩, .ok ⟨"[DONE]"⟩]⟩
      [⟨"a"⟩, ⟨"b"⟩]
      (fun ev => if ev.data = "a" then ⟨1, none⟩ else ⟨2, none⟩)
      rfl (by decide) rfl
      (by
        intro ev hev
        rw [List.mem_cons, List.mem_singleton] at hev
        rcases hev with h1 | h2
        · subst h1; exact ⟨by decide, by decide⟩
        · subst h2; exact ⟨by decide, by decide⟩)
  simpa using h.1

/-- Helper: a successful polling loop performs at most `5 - attempts`
retries and sleeps exactly 2 seconds per retry. -/
theorem onboard_loop_retry_bound (send : Nat → Except String HttpResponse)
    (parse : String → Except String LroResponse) :
    ∀ k attempts lro fin retries secs, 5 - attempts ≤ k →
      onboard_loop send parse lro attempts = .ok (fin, retries, secs) →
      retries ≤ 5 - attempts ∧ secs = 2 * retries := by
  intro k
  induction k with
  | zero =>
    intro attempts lro fin retries secs hk hloop
    unfold onboard_loop at hloop
    rw [dif_neg (fun hcond => absurd hcond.2 (by omega))] at hloop
    simp only [Except.ok.injEq, Prod.mk.injEq] at hloop
    obtain ⟨_, hr, hs⟩ := hloop
    omega
  | succ k ih =>
    intro attempts lro fin retries secs hk hloop
    unfold onboard_loop at hloop
    by_cases hcond : lro.done ≠ some true ∧ attempts < 5
    · rw [dif_pos hcond] at hloop
      obtain ⟨hdone, hlt⟩ := hcond
      cases hfetch : onboard_fetch (send (attempts + 1)) parse with
      | error e =>
        simp only [hfetch] at hloop
        exact Except.noConfusion hloop
      | ok lro2 =>
        simp only [hfetch] at hloop
        cases hrec : onboard_loop send parse lro2 (attempts + 1) with
        | error e =>
          simp only [hrec] at hloop
          exact Except.noConfusion hloop
        | ok trip =>
          obtain ⟨fin2, r2, s2⟩ := trip
          simp only [hrec, Except.ok.injEq, Prod.mk.injEq] at hloop
          obtain ⟨_, hr, hs⟩ := hloop
          have hb := ih (attempts + 1) lro2 fin2 r2 s2 (by omega) hrec
          omega
    · rw [dif_neg hcond] at hloop
      simp only [Except.ok.injEq, Prod.mk.injEq] at hloop
      obtain ⟨_, hr, hs⟩ := hloop
      omega

/-- Helper: when every request succeeds at the transport level and no
record ever reports completion, the loop runs its whole remaining budget. -/
theorem onboard_loop_exhausts_budget (send : Nat → Except String HttpResponse)
    (parse : String → Except String LroResponse) :
    ∀ k attempts lro, 5 - attempts = k → lro.done ≠ some true →
      (∀ j, j ≤ 5 → ∃ l, onboard_fetch (send j) parse = .ok l ∧ l.done ≠ some true) →
      ∃ fin, onboard_loop send parse lro attempts = .ok (fin, k, 2 * k) := by
  intro k
  induction k with
  | zero =>
    intro attempts lro hk hdone hall
    refine ⟨lro, ?_⟩
    unfold onboard_loop
    rw [dif_neg (fun hcond => absurd hcond.2 (by omega))]
  | succ k ih =>
    intro attempts lro hk hdone hall
    have hlt : attempts < 5 := by omega
    obtain ⟨l, hl, hldone⟩ := hall (attempts + 1) (by omega)
    obtain ⟨fin, hfin⟩ := ih (attempts + 1) l (by omega) hldone hall
    refine ⟨fin, ?_⟩
    unfold onboard_loop
    rw [dif_pos ⟨hdone, hlt⟩]
    simp only [hl, hfin]
    simp [Nat.mul_succ]

/-- C6: at most 6 total onboarding requests are sent (1 initial plus 5
retries), a fixed 2-second wait precedes each retry (so the total sleep is
2·(requests−1)), and the polling loop stops as soon as a returned record
reports done, regardless of remaining budget. -/
theorem onboard_budget_and_early_stop :
    (∀ (project_id : String) (send : Nat → Except String HttpResponse)
       (parse : String → Except String LroResponse) proj reqs secs,
       onboard_user project_id send parse = .ok (proj, reqs, secs) →
       reqs ≤ 6 ∧ secs = 2 * (reqs - 1)) ∧
    (∀ (send : Nat → Except String HttpResponse)
       (parse : String → Except String LroResponse) lro attempts lro2,
       lro.done ≠ some true → attempts < 5 →
       onboard_fetch (send (attempts + 1)) parse = .ok lro2 →
       lro2.done = some true →
       onboard_loop send parse lro attempts = .ok (lro2, 1, 2)) := by
  constructor
  · intro project_id send parse proj reqs secs h
    unfold onboard_user at h
    cases hf : onboard_fetch (send 0) parse with
    | error e =>
      simp only [hf] at h
      exact Except.noConfusion h
    | ok lro0 =>
      simp only [hf] at h
      cases hloop : onboard_loop send parse lro0 0 with
      | error e =>
        simp only [hloop] at h
        exact Except.noConfusion h
      | ok trip =>
        obtain ⟨lro, retries, secs2⟩ := trip
        simp only [hloop] at h
        have hb := onboard_loop_retry_bound send parse 5 0 lro0 lro retries secs2
          (by omega) hloop
        simp only [Except.ok.injEq, Prod.mk.injEq] at h
        omega
  · intro send parse lro attempts lro2 hdone hlt hfetch hdone2
    unfold onboard_loop
    rw [dif_pos ⟨hdone, hlt⟩]
    simp only [hfetch]
    have hstop : onboard_loop send parse lro2 (attempts + 1) = .ok (lro2, 0, 0) := by
      unfold onboard_loop
      rw [dif_neg (fun hcond => hcond.1 hdone2)]
    simp only [hstop]

/-- Witness for `onboard_budget_and_early_stop`: a run whose second request
reports completion sends 2 requests and sleeps 2 seconds; the loop stops
right after the done record. -/
theorem onboard_budget_and_early_stop_witness :
    (2 ≤ 6 ∧ 2 = 2 * (2 - 1)) ∧
    onboard_loop (fun _ => .ok ⟨200, "done"⟩)
      (fun b => if b = "done" then .ok ⟨"op", some true, none⟩ else .error "bad")
      ⟨"op", some false, none⟩ 0 = .ok (⟨"op", some true, none⟩, 1, 2) := by
  constructor
  · exact onboard_budget_and_early_stop.1 "p"
      (fun j => .ok ⟨200, if j = 0 then "pending" else "done"⟩)
      (fun b => if b = "pending" then .ok ⟨"op", some false, none⟩
                else .ok ⟨"op", some true, none⟩)
      "p" 2 2
      (by simp [onboard_user, onboard_fetch, onboard_loop, onboard_result_project])
  · exact onboard_budget_and_early_stop.2
      (fun _ => .ok ⟨200, "done"⟩)
      (fun b => if b = "done" then .ok ⟨"op", some true, none⟩ else .error "bad")
      ⟨"op", some false, none⟩ 0 ⟨"op", some true, none⟩
      (by simp) (by omega) (by simp [onboard_fetch]) rfl

/-- C7: when every attempt succeeds at the transport level but no attempt
ever reports completion, onboarding returns without error once the budget
is exhausted (6 requests, 10 seconds slept). -/
theorem onboard_incomplete_is_success (project_id : String)
    (send : Nat → Except String HttpResponse)
    (parse : String → Except String LroResponse)
    (h : ∀ j, j ≤ 5 → ∃ l, onboard_fetch (send j) parse = .ok l ∧ l.done ≠ some true) :
    ∃ proj, onboard_user project_id send parse = .ok (proj, 6, 10) := by
  obtain ⟨l0, hl0, hl0done⟩ := h 0 (by omega)
  obtain ⟨fin, hfin⟩ := onboard_loop_exhausts_budget send parse 5 0 l0 rfl hl0done h
  unfold onboard_user
  simp only [hl0, hfin]
  exact ⟨onboard_result_project project_id fin, rfl⟩

/-- Witness for `onboard_incomplete_is_success`: every request parses to an
incomplete record, and the call still succeeds. -/
theorem onboard_incomplete_is_success_witness :
    (onboard_user "p" (fun _ => .ok ⟨200, "pending"⟩)
      (fun _ => .ok ⟨"op", some false, none⟩)).toBool = true := by
  obtain ⟨proj, hp⟩ := onboard_incomplete_is_success "p"
    (fun _ => .ok ⟨200, "pending"⟩) (fun _ => .ok ⟨"op", some false, none⟩)
    (fun j hj => ⟨⟨"op", some false, none⟩, rfl, by simp⟩)
  rw [hp]
  rfl

/-- C1 (amended): for the handshake, the synchronous generation call and the
stream establishment, a non-2xx response yields an `ApiError` whose code is
exactly the response status and whose message contains the response body
text.  (The onboarding call is excluded: it performs no status check, see
the counterexample.) -/
theorem non_success_status_yields_api_error {R : Type}
    (project_id : String) (resp : HttpResponse) (sresp : HttpStreamResponse)
    (parse1 : String → Except String LoadCodeAssistResponse)
    (model project : String) (request_json : Json) (sid upid : String)
    (send2 : CodeAssistEnvelope → Except String HttpResponse)
    (parse2 : String → Except String (CodeAssistResponseEnvelope R))
    (send3 : CodeAssistEnvelope → Except String HttpStreamResponse)
    (dec : String → Except String (CodeAssistResponseEnvelope R))
    (hst : is_success resp.status = false)
    (hst3 : is_success sresp.status = false)
    (hsend2 : send2 (build_generation_envelope model project request_json sid upid) = .ok resp)
    (hsend3 : send3 (build_generation_envelope model project request_json sid upid) = .ok sresp) :
    (load_code_assist project_id (.ok resp) parse1
       = .error (.ApiError resp.status ("Handshake failed: " ++ resp.body)) ∧
     ∃ pre suf, "Handshake failed: " ++ resp.body = pre ++ resp.body ++ suf) ∧
    generate_content model project request_json sid upid send2 parse2
       = .error (.ApiError resp.status resp.body) ∧
    generate_content_stream model project request_json sid upid send3 dec
       = .error (.ApiError sresp.status sresp.body) := by
  refine ⟨⟨?_, "Handshake failed: ", "", by simp⟩, ?_, ?_⟩
  · simp [load_code_assist, hst]
  · simp [generate_content, hsend2, hst]
  · simp [generate_content_stream, hsend3, hst3]

/-- Witness for `non_success_status_yields_api_error` at concrete non-2xx
responses. -/
theorem non_success_status_yields_api_error_witness :
    load_code_assist "p" (.ok ⟨404, "Not Found"⟩) (fun _ => .error "unused")
      = .error (.ApiError 404 ("Handshake failed: " ++ "Not Found")) ∧
    generate_content (R := Nat) "m" "p" Json.null "s" "u"
      (fun _ => .ok ⟨404, "Not Found"⟩) (fun _ => .error "unused")
      = .error (.ApiError 404 "Not Found") ∧
    generate_content_stream (R := Nat) "m" "p" Json.null "s" "u"
      (fun _ => .ok ⟨500, "oops", []⟩) (fun _ => .error "unused")
      = .error (.ApiError 500 "oops") := by
  have h := non_success_status_yields_api_error (R := Nat) "p"
      ⟨404, "Not Found"⟩ ⟨500, "oops", []⟩
      (fun _ => .error "unused") "m" "p" Json.null "s" "u"
      (fun _ => .ok ⟨404, "Not Found"⟩) (fun _ => .error "unused")
      (fun _ => .ok ⟨500, "oops", []⟩) (fun _ => .error "unused")
      (by decide) (by decide) rfl rfl
  exact ⟨h.1.1, h.2.1, h.2.2⟩

/-- C1 counterexample: the onboarding call never checks the HTTP status.
With a 500 response whose body decodes as a completed operation record,
`onboard_user` returns `Ok` — not an API error carrying the status. -/
theorem onboard_ignores_non_success_status :
    onboard_user "p" (fun _ => .ok ⟨500, "lro-done"⟩)
      (fun b => if b = "lro-done" then .ok ⟨"op", some true, none⟩ else .error "bad")
      = .ok ("p", 1, 0) ∧
    is_success 500 = false := by
  constructor
  · simp [onboard_user, onboard_fetch, onboard_loop, onboard_result_project]
  · rfl

/-- C9 (amended): a malformed event payload in the per-event streaming path
yields the decode variant `SerdeError`, distinct from the transport
variants; in the synchronous path, however, a malformed response body is
surfaced through the transport variant `RequestFailed`, because
`response.json()` fails with the HTTP clients own error type. -/
theorem decode_error_vs_transport_variants {R : Type}
    (dec : String → Except String (CodeAssistResponseEnvelope R))
    (ev : SseEvent) (msg : String)
    (hne : ev.data ≠ "[DONE]") (hdec : dec ev.data = .error msg) :
    map_stream_event dec (.ok ev) = some (.error (.SerdeError msg)) ∧
    is_decode_error (.SerdeError msg) = true ∧
    (∀ e, is_decode_error (.StreamError e) = false ∧
          is_decode_error (.RequestFailed e) = false) ∧
    (∀ (model project : String) (request_json : Json) (sid upid : String)
       (send : CodeAssistEnvelope → Except String HttpResponse)
       (parse : String → Except String (CodeAssistResponseEnvelope R))
       (resp : HttpResponse) (perr : String),
       send (build_generation_envelope model project request_json sid upid) = .ok resp →
       is_success resp.status = true →
       parse resp.body = .error perr →
       generate_content model project request_json sid upid send parse
         = .error (.RequestFailed perr)) := by
  refine ⟨?_, rfl, fun e => ⟨rfl, rfl⟩, ?_⟩
  · simp [map_stream_event, hne, hdec]
  · intro model project request_json sid upid send parse resp perr hsend hst hp
    simp [generate_content, hsend, hst, hp]

/-- Witness for `decode_error_vs_transport_variants` at a concrete
malformed payload. -/
theorem decode_error_vs_transport_variants_witness :
    map_stream_event (R := Nat) (fun _ => .error "malformed") (.ok ⟨"x"⟩)
      = some (.error (.SerdeError "malformed")) ∧
    generate_content (R := Nat) "m" "p" Json.null "s" "u"
      (fun _ => .ok ⟨200, "not json"⟩) (fun _ => .error "malformed")
      = .error (.RequestFailed "malformed") := by
  have h := decode_error_vs_transport_variants (R := Nat)
      (fun _ => .error "malformed") ⟨"x"⟩ "malformed" (by decide) rfl
  exact ⟨h.1, h.2.2.2 "m" "p" Json.null "s" "u"
      (fun _ => .ok ⟨200, "not json"⟩) (fun _ => .error "malformed")
      ⟨200, "not json"⟩ "malformed" rfl (by decide) rfl⟩

/-- C9 counterexample: in the synchronous generation path a malformed
response body is reported as `RequestFailed` — the transport variant — not
as a decode-specific error case. -/
theorem sync_decode_failure_is_transport_variant :
    generate_content (R := Nat) "m" "p" Json.null "s" "u"
      (fun _ => .ok ⟨200, "not json"⟩) (fun _ => .error "expected value")
      = .error (.RequestFailed "expected value") ∧
    is_decode_error (.RequestFailed "expected value") = false := by
  constructor
  · simp [generate_content, is_success]
  · rfl

end CodeAssist
